import Mathlib

/-!
Shallow embedding of the Remodeling Job Tracker (src/app.py, v1.1).

The app is a Streamlit UI over four SQLite tables (projects, tasks, expenses,
incomes).  We embed the database as explicit lists of rows with per-table
auto-increment counters, the form handlers as pure state-transforming
functions returning the new state together with the message the UI shows
(success banner, error banner, or an integrity failure raised by SQLite when
a foreign key is violated under PRAGMA foreign_keys = ON), the SQL list
queries as filter-then-sort on the row lists, and the Reports/Dashboard tab
computation (lines 255-261 of app.py) as pure functions over ℚ
(Python floats carry exact small decimals; all spec examples are exact).
-/

namespace JobTracker

/-- Row of the `projects` table (schema in init_db, app.py lines 32-41). -/
structure Project where
  id : Nat
  name : String
  client_name : String
  address : String
  start_date : String
  target_date : String
  status : String
  notes : String
deriving DecidableEq, Repr

/-- Row of the `tasks` table (app.py lines 42-53). -/
structure Task where
  id : Nat
  project_id : Nat
  title : String
  description : String
  status : String
  due_date : String
  assignee : String
  hours_est : ℚ
  hours_spent : ℚ
deriving DecidableEq, Repr

/-- Row of the `expenses` table (app.py lines 54-65).  The add_expense INSERT
names no receipt_filename column, so that field is NULL (`none`) for every
row created through the form. -/
structure Expense where
  id : Nat
  project_id : Nat
  category : String
  vendor : String
  description : String
  amount : ℚ
  date : String
  payment_method : String
  receipt_filename : Option String
deriving DecidableEq, Repr

/-- Row of the `incomes` table (app.py lines 66-75). -/
structure Income where
  id : Nat
  project_id : Nat
  source : String
  description : String
  amount : ℚ
  date : String
  payment_method : String
deriving DecidableEq, Repr

/-- The persisted state: the four tables plus the AUTOINCREMENT counters. -/
structure AppState where
  projects : List Project
  tasks : List Task
  expenses : List Expense
  incomes : List Income
  next_project_id : Nat
  next_task_id : Nat
  next_expense_id : Nat
  next_income_id : Nat
deriving DecidableEq, Repr

/-- The freshly initialised database (init_db on a new file). -/
def emptyState : AppState :=
  { projects := [], tasks := [], expenses := [], incomes := []
    next_project_id := 1, next_task_id := 1
    next_expense_id := 1, next_income_id := 1 }

/-- What a form submission reports back to the UI: a success banner
(st.success), a validation banner (st.error), or the sqlite3.IntegrityError
raised when an INSERT violates the foreign key on project_id. -/
inductive SubmitMsg where
  | success (msg : String)
  | validationError (msg : String)
  | integrityError
deriving DecidableEq, Repr

/-- `PRAGMA foreign_keys = ON` (get_conn, app.py line 26): an INSERT into a
dependent table succeeds only when the referenced project row exists. -/
def projectExists (db : AppState) (pid : Nat) : Bool :=
  db.projects.any (fun p => p.id == pid)

/-- Python `str.strip()` removes leading and trailing whitespace; the form
handlers test `not s.strip()`, which is true exactly when every character of
`s` is whitespace (in particular when `s` is empty). -/
def isSpaceChar (c : Char) : Bool :=
  c == ' ' || c == '\t' || c == '\n' || c == '\r' || c == '\x0b' || c == '\x0c'

/-- `not s.strip()` from the handlers: `s` strips to the empty string. -/
def stripped_empty (s : String) : Bool :=
  s.data.all isSpaceChar

/-- add_project form handler (app.py lines 128-137): if the name strips to
empty, show "Project name is required." and persist nothing; otherwise
INSERT the project row and show "Project added.". -/
def add_project_submit (db : AppState) (name client_name address start_date
    target_date status notes : String) : AppState × SubmitMsg :=
  if stripped_empty name then
    (db, SubmitMsg.validationError "Project name is required.")
  else
    ({ db with
        projects := db.projects ++
          [{ id := db.next_project_id, name := name, client_name := client_name
             address := address, start_date := start_date
             target_date := target_date, status := status, notes := notes }]
        next_project_id := db.next_project_id + 1 },
     SubmitMsg.success "Project added.")

/-- add_task form handler (app.py lines 161-170): if the title strips to
empty, show "Task title required." and persist nothing; otherwise INSERT the
task row (hours are passed through unexamined) and show "Task added.". -/
def add_task_submit (db : AppState) (pid : Nat) (title desc status due
    assignee : String) (h_est h_spent : ℚ) : AppState × SubmitMsg :=
  if stripped_empty title then
    (db, SubmitMsg.validationError "Task title required.")
  else if projectExists db pid then
    ({ db with
        tasks := db.tasks ++
          [{ id := db.next_task_id, project_id := pid, title := title
             description := desc, status := status, due_date := due
             assignee := assignee, hours_est := h_est, hours_spent := h_spent }]
        next_task_id := db.next_task_id + 1 },
     SubmitMsg.success "Task added.")
  else (db, SubmitMsg.integrityError)

/-- add_expense form handler (app.py lines 204-210): no validation of any
field; the INSERT runs unconditionally (the INSERT lists no receipt_filename,
so it is NULL) and "Expense added." is shown. -/
def add_expense_submit (db : AppState) (pid : Nat) (category vendor desc :
    String) (amt : ℚ) (date_val pay_method : String) : AppState × SubmitMsg :=
  if projectExists db pid then
    ({ db with
        expenses := db.expenses ++
          [{ id := db.next_expense_id, project_id := pid, category := category
             vendor := vendor, description := desc, amount := amt
             date := date_val, payment_method := pay_method
             receipt_filename := none }]
        next_expense_id := db.next_expense_id + 1 },
     SubmitMsg.success "Expense added.")
  else (db, SubmitMsg.integrityError)

/-- add_income form handler (app.py lines 230-236): no validation of any
field; the INSERT runs unconditionally with the literal "Other" as the
payment_method (the form offers no payment-method input) and
"Income added." is shown. -/
def add_income_submit (db : AppState) (pid : Nat) (source : String)
    (amt : ℚ) (date_val desc : String) : AppState × SubmitMsg :=
  if projectExists db pid then
    ({ db with
        incomes := db.incomes ++
          [{ id := db.next_income_id, project_id := pid, source := source
             description := desc, amount := amt, date := date_val
             payment_method := "Other" }]
        next_income_id := db.next_income_id + 1 },
     SubmitMsg.success "Income added.")
  else (db, SubmitMsg.integrityError)

/-- `ORDER BY id DESC`: row `a` comes no later than row `b` when
`b.id ≤ a.id`. -/
def taskIdGe (a b : Task) : Prop := b.id ≤ a.id

instance : DecidableRel taskIdGe := fun a b => Nat.decLe b.id a.id

instance : IsTotal Task taskIdGe := ⟨fun a b => Nat.le_total b.id a.id⟩

instance : IsTrans Task taskIdGe := ⟨fun _ _ _ h1 h2 => Nat.le_trans h2 h1⟩

/-- `SELECT * FROM tasks WHERE project_id=? ORDER BY id DESC`
(app.py line 181). -/
def list_tasks (db : AppState) (pid : Nat) : List Task :=
  List.insertionSort taskIdGe (db.tasks.filter (fun t => t.project_id == pid))

/-- Bool test: `cs` starts with `ns`. -/
def charsStart : List Char → List Char → Bool
  | _, [] => true
  | [], _ :: _ => false
  | c :: cs, d :: ds => c == d && charsStart cs ds

/-- Bool test: `ns` occurs contiguously inside `cs`. -/
def charsHave : List Char → List Char → Bool
  | [], ns => charsStart [] ns
  | c :: cs, ns => charsStart (c :: cs) ns || charsHave cs ns

/-- pandas `str.contains(needle, case=False)`: case-insensitive substring. -/
def strContainsCI (hay needle : String) : Bool :=
  charsHave hay.toLower.data needle.toLower.data

/-- The Tasks tab after the filters (app.py lines 178-188): read tasks for
the project in descending id order, then, when the status multiselect is
non-empty, keep rows whose status is a member of it, then, when the assignee
text filter is non-empty, keep rows whose assignee contains it
case-insensitively (NULL assignees read as ""). -/
def tasks_view (db : AppState) (pid : Nat) (status_filter : List String)
    (assignee_filter : String) : List Task :=
  let dft := list_tasks db pid
  let step1 := if status_filter.isEmpty then dft
    else dft.filter (fun t => status_filter.contains t.status)
  if assignee_filter == "" then step1
  else step1.filter (fun t => strContainsCI t.assignee assignee_filter)

/-- `ORDER BY date DESC, id DESC`: row `a` comes no later than row `b` when
its date is strictly later, or the dates tie and `b.id ≤ a.id`.  Dates are
TEXT `YYYY-MM-DD`, which SQLite compares bytewise, i.e. lexicographically. -/
def expOrder (a b : Expense) : Prop :=
  b.date < a.date ∨ (a.date = b.date ∧ b.id ≤ a.id)

instance : DecidableRel expOrder := fun a b =>
  decidable_of_iff (b.date < a.date ∨ (a.date = b.date ∧ b.id ≤ a.id)) Iff.rfl

instance : IsTotal Expense expOrder := by
  refine ⟨fun a b => ?_⟩
  rcases lt_trichotomy a.date b.date with h | h | h
  · exact Or.inr (Or.inl h)
  · rcases Nat.le_total b.id a.id with h2 | h2
    · exact Or.inl (Or.inr ⟨h, h2⟩)
    · exact Or.inr (Or.inr ⟨h.symm, h2⟩)
  · exact Or.inl (Or.inl h)

instance : IsTrans Expense expOrder := by
  refine ⟨fun a b c h1 h2 => ?_⟩
  rcases h1 with h1 | ⟨h1, h1b⟩
  · rcases h2 with h2 | ⟨h2, _⟩
    · exact Or.inl (lt_trans h2 h1)
    · exact Or.inl (h2 ▸ h1)
  · rcases h2 with h2 | ⟨h2, h2b⟩
    · exact Or.inl (lt_of_lt_of_eq h2 h1.symm)
    · exact Or.inr ⟨h1.trans h2, Nat.le_trans h2b h1b⟩

/-- Same ordering for income rows. -/
def incOrder (a b : Income) : Prop :=
  b.date < a.date ∨ (a.date = b.date ∧ b.id ≤ a.id)

instance : DecidableRel incOrder := fun a b =>
  decidable_of_iff (b.date < a.date ∨ (a.date = b.date ∧ b.id ≤ a.id)) Iff.rfl

instance : IsTotal Income incOrder := by
  refine ⟨fun a b => ?_⟩
  rcases lt_trichotomy a.date b.date with h | h | h
  · exact Or.inr (Or.inl h)
  · rcases Nat.le_total b.id a.id with h2 | h2
    · exact Or.inl (Or.inr ⟨h, h2⟩)
    · exact Or.inr (Or.inr ⟨h.symm, h2⟩)
  · exact Or.inl (Or.inl h)

instance : IsTrans Income incOrder := by
  refine ⟨fun a b c h1 h2 => ?_⟩
  rcases h1 with h1 | ⟨h1, h1b⟩
  · rcases h2 with h2 | ⟨h2, _⟩
    · exact Or.inl (lt_trans h2 h1)
    · exact Or.inl (h2 ▸ h1)
  · rcases h2 with h2 | ⟨h2, h2b⟩
    · exact Or.inl (lt_of_lt_of_eq h2 h1.symm)
    · exact Or.inr ⟨h1.trans h2, Nat.le_trans h2b h1b⟩

/-- `SELECT * FROM expenses WHERE project_id=? ORDER BY date DESC, id DESC`
(app.py line 214). -/
def list_expenses (db : AppState) (pid : Nat) : List Expense :=
  List.insertionSort expOrder (db.expenses.filter (fun e => e.project_id == pid))

/-- `SELECT * FROM incomes WHERE project_id=? ORDER BY date DESC, id DESC`
(app.py line 240). -/
def list_incomes (db : AppState) (pid : Nat) : List Income :=
  List.insertionSort incOrder (db.incomes.filter (fun i => i.project_id == pid))

/-- `dfe["amount"].sum() if not dfe.empty else 0` (app.py line 255). -/
def exp_total (dfe : List Expense) : ℚ :=
  if !dfe.isEmpty then (dfe.map (fun e => e.amount)).sum else 0

/-- `dfi["amount"].sum() if not dfi.empty else 0` (app.py line 256). -/
def inc_total (dfi : List Income) : ℚ :=
  if !dfi.isEmpty then (dfi.map (fun i => i.amount)).sum else 0

/-- `(dft["status"] == "Done").sum() if not dft.empty else 0`
(app.py line 259). -/
def tasks_done (dft : List Task) : Nat :=
  dft.countP (fun t => t.status == "Done")

/-- `len(dft) if not dft.empty else 0` (app.py line 260). -/
def tasks_total (dft : List Task) : Nat := dft.length

/-- `(done / total_tasks * 100) if total_tasks else 0` (app.py line 261). -/
def pct_done (dft : List Task) : ℚ :=
  if tasks_total dft ≠ 0 then
    (tasks_done dft : ℚ) / (tasks_total dft : ℚ) * 100
  else 0

/-- The metrics the Reports / Dashboard tab derives for one project, under
the names the specification gives them. -/
structure Dashboard where
  incomeTotal : ℚ
  expenseTotal : ℚ
  profit : ℚ
  tasksDone : Nat
  tasksTotal : Nat
  percentDone : ℚ
deriving DecidableEq, Repr

/-- The dashboard computation (app.py lines 255-261), packaged as the pure
function `computeDashboard(tasks, expenses, incomes)` of the specification:
`profit = inc_total - exp_total` is line 257. -/
def computeDashboard (dft : List Task) (dfe : List Expense)
    (dfi : List Income) : Dashboard :=
  { incomeTotal := inc_total dfi
    expenseTotal := exp_total dfe
    profit := inc_total dfi - exp_total dfe
    tasksDone := tasks_done dft
    tasksTotal := tasks_total dft
    percentDone := pct_done dft }

/-- `st.progress(min(1.0, pct_done/100))` (app.py line 267): the fraction
handed to the progress bar. -/
def progress_value (dft : List Task) : ℚ :=
  min 1 (pct_done dft / 100)

/-- Modelled from the spec: app.py offers no delete action, so the project
delete operation is missing from the source; its effect is fixed by the
schema (`ON DELETE CASCADE` on every project_id foreign key, app.py lines
52, 64, 74, active under `PRAGMA foreign_keys = ON`, line 26) and by the
spec: "Deleting a Project removes all Tasks/Expenses/Incomes with that
project_id". -/
def deleteProject (db : AppState) (pid : Nat) : AppState :=
  { db with
      projects := db.projects.filter (fun p => !(p.id == pid))
      tasks := db.tasks.filter (fun t => !(t.project_id == pid))
      expenses := db.expenses.filter (fun e => !(e.project_id == pid))
      incomes := db.incomes.filter (fun i => !(i.project_id == pid)) }


/-! ### Concrete fixtures used by witnesses and counterexamples -/

/-- Database holding one project (id 1), built through the add_project
handler itself. -/
def dbKitchen : AppState :=
  (add_project_submit emptyState "Kitchen remodel" "John Smith" "123 Main St"
    "2024-01-01" "2024-02-01" "Planned" "").1

/-- Four tasks of which exactly three have status "Done". -/
def fourTasks : List Task :=
  [ { id := 1, project_id := 1, title := "a", description := "", status := "Done",
      due_date := "", assignee := "", hours_est := 0, hours_spent := 0 },
    { id := 2, project_id := 1, title := "b", description := "", status := "Done",
      due_date := "", assignee := "", hours_est := 0, hours_spent := 0 },
    { id := 3, project_id := 1, title := "c", description := "", status := "Done",
      due_date := "", assignee := "", hours_est := 0, hours_spent := 0 },
    { id := 4, project_id := 1, title := "d", description := "", status := "To Do",
      due_date := "", assignee := "", hours_est := 0, hours_spent := 0 } ]

/-- A single income row of amount 1000. -/
def inc1000 : Income :=
  { id := 1, project_id := 1, source := "Invoice 1", description := "",
    amount := 1000, date := "2024-01-05", payment_method := "Other" }

/-- A single expense row of amount 400. -/
def exp400 : Expense :=
  { id := 1, project_id := 1, category := "Materials", vendor := "HD",
    description := "", amount := 400, date := "2024-01-04",
    payment_method := "Cash", receipt_filename := none }

/-- A task, an expense and an income all belonging to project 1. -/
def taskA : Task :=
  { id := 1, project_id := 1, title := "Demo", description := "", status := "To Do",
    due_date := "2024-01-10", assignee := "Tyler", hours_est := 2, hours_spent := 0 }

def expA : Expense :=
  { id := 1, project_id := 1, category := "Tools", vendor := "HD",
    description := "", amount := 30, date := "2024-01-03",
    payment_method := "Cash", receipt_filename := none }

def incA : Income :=
  { id := 1, project_id := 1, source := "Invoice 2", description := "",
    amount := 500, date := "2024-01-06", payment_method := "Other" }

def projA : Project :=
  { id := 1, name := "Kitchen remodel", client_name := "John Smith",
    address := "123 Main St", start_date := "2024-01-01",
    target_date := "2024-02-01", status := "Planned", notes := "" }

/-- Database with project 1 and one task, expense and income row under it. -/
def dbFull : AppState :=
  { projects := [projA], tasks := [taskA], expenses := [expA], incomes := [incA]
    next_project_id := 2, next_task_id := 2
    next_expense_id := 2, next_income_id := 2 }

/-! ### Claims -/

/-- C1 (counterexample): submitting the expense form with amount -5 against
an existing project reports the success banner and stores the row, refuting
that such a create fails with a ValidationError and is not persisted. -/
theorem c1_negative_amount_persisted :
    (add_expense_submit dbKitchen 1 "Materials" "HD" "thinset" (-5)
        "2024-01-02" "Cash").2 = SubmitMsg.success "Expense added." ∧
    (add_expense_submit dbKitchen 1 "Materials" "HD" "thinset" (-5)
        "2024-01-02" "Cash").1.expenses.length
      = dbKitchen.expenses.length + 1 := by
  decide

/-- C1 (amended): the expense and income form handlers perform no amount
validation at all: whatever amount they are given, including a negative one,
the row is inserted and the success banner is shown; negative amounts are
excluded only by the number-input widget (min_value = 0), not by the create
operation. -/
theorem c1_no_amount_validation (db : AppState) (pid : Nat)
    (category vendor desc source date_val pay_method desc2 : String) (amt : ℚ)
    (hp : projectExists db pid = true) :
    add_expense_submit db pid category vendor desc amt date_val pay_method
      = ({ db with
            expenses := db.expenses ++
              [{ id := db.next_expense_id, project_id := pid
                 category := category, vendor := vendor, description := desc
                 amount := amt, date := date_val, payment_method := pay_method
                 receipt_filename := none }]
            next_expense_id := db.next_expense_id + 1 },
         SubmitMsg.success "Expense added.") ∧
    add_income_submit db pid source amt date_val desc2
      = ({ db with
            incomes := db.incomes ++
              [{ id := db.next_income_id, project_id := pid, source := source
                 description := desc2, amount := amt, date := date_val
                 payment_method := "Other" }]
            next_income_id := db.next_income_id + 1 },
         SubmitMsg.success "Income added.") := by
  constructor
  · rw [add_expense_submit, if_pos hp]
  · rw [add_income_submit, if_pos hp]

/-- Witness for c1_no_amount_validation at project 1 of dbKitchen and
amount -5. -/
theorem c1_no_amount_validation_witness :
    projectExists dbKitchen 1 = true ∧
    (add_expense_submit dbKitchen 1 "Materials" "HD" "thinset" (-5)
        "2024-01-02" "Cash").2 = SubmitMsg.success "Expense added." := by
  have h : projectExists dbKitchen 1 = true := by decide
  exact ⟨h, by
    rw [(c1_no_amount_validation dbKitchen 1 "Materials" "HD" "thinset" ""
          "2024-01-02" "Cash" "" (-5) h).1]⟩
/-- C2: percentDone is tasksDone / tasksTotal * 100 when tasksTotal > 0 and
0 when tasksTotal = 0 (no division by zero); for any 4 tasks of which
exactly 3 are "Done", it is 75. -/
theorem c2_percent_done (dft : List Task) :
    (tasks_total dft ≠ 0 →
      pct_done dft = (tasks_done dft : ℚ) / (tasks_total dft : ℚ) * 100) ∧
    (tasks_total dft = 0 → pct_done dft = 0) ∧
    (tasks_total dft = 4 → tasks_done dft = 3 → pct_done dft = 75) := by
  refine ⟨fun h => by rw [pct_done, if_pos h],
          fun h => by rw [pct_done, if_neg (by simp [h])],
          fun h4 h3 => ?_⟩
  rw [pct_done, h4, h3]
  norm_num

/-- Witness for c2_percent_done on four concrete tasks, three of them
"Done". -/
theorem c2_percent_done_witness :
    tasks_total fourTasks = 4 ∧ tasks_done fourTasks = 3 ∧
    pct_done fourTasks = 75 :=
  ⟨by decide, by decide,
   (c2_percent_done fourTasks).2.2 (by decide) (by decide)⟩

/-- C3: the dashboard of empty task, expense and income lists is all
zeros. -/
theorem c3_dashboard_empty :
    computeDashboard [] [] [] =
      { incomeTotal := 0, expenseTotal := 0, profit := 0,
        tasksDone := 0, tasksTotal := 0, percentDone := 0 } := by
  simp [computeDashboard, inc_total, exp_total, tasks_done, tasks_total,
    pct_done]

/-- C4: profit is incomeTotal minus expenseTotal, the totals are the sums of
the amount fields (0 when the list is empty), and incomes summing to 1000
with expenses summing to 400 give profit 600. -/
theorem c4_profit (dft : List Task) (dfe : List Expense) (dfi : List Income) :
    (computeDashboard dft dfe dfi).profit
      = (computeDashboard dft dfe dfi).incomeTotal
        - (computeDashboard dft dfe dfi).expenseTotal ∧
    (computeDashboard dft dfe dfi).incomeTotal
      = (dfi.map (fun i => i.amount)).sum ∧
    (computeDashboard dft dfe dfi).expenseTotal
      = (dfe.map (fun e => e.amount)).sum ∧
    ((dfi.map (fun i => i.amount)).sum = 1000 →
      (dfe.map (fun e => e.amount)).sum = 400 →
      (computeDashboard dft dfe dfi).profit = 600) := by
  have hinc : inc_total dfi = (dfi.map (fun i => i.amount)).sum := by
    rw [inc_total]; cases dfi <;> simp
  have hexp : exp_total dfe = (dfe.map (fun e => e.amount)).sum := by
    rw [exp_total]; cases dfe <;> simp
  refine ⟨rfl, hinc, hexp, fun h1 h2 => ?_⟩
  show inc_total dfi - exp_total dfe = 600
  rw [hinc, hexp, h1, h2]
  norm_num

/-- Witness for c4_profit: one income of 1000 and one expense of 400 give
profit 600. -/
theorem c4_profit_witness :
    ([inc1000].map (fun i => i.amount)).sum = 1000 ∧
    ([exp400].map (fun e => e.amount)).sum = 400 ∧
    (computeDashboard [] [exp400] [inc1000]).profit = 600 :=
  ⟨by simp [inc1000], by simp [exp400],
   (c4_profit [] [exp400] [inc1000]).2.2.2 (by simp [inc1000])
     (by simp [exp400])⟩

/-- C5: submitting the project form with an empty name reports the
validation banner "Project name is required.", leaves the state unchanged,
and in particular the project count is unchanged. -/
theorem c5_empty_project_name (db : AppState)
    (name client address sd td status notes : String) (h : name = "") :
    add_project_submit db name client address sd td status notes
      = (db, SubmitMsg.validationError "Project name is required.") ∧
    (add_project_submit db name client address sd td status notes).1.projects.length
      = db.projects.length := by
  subst h
  have hs : stripped_empty "" = true := by decide
  have he : add_project_submit db "" client address sd td status notes
      = (db, SubmitMsg.validationError "Project name is required.") := by
    rw [add_project_submit, if_pos hs]
  exact ⟨he, by rw [he]⟩

/-- Witness for c5_empty_project_name on the empty database. -/
theorem c5_empty_project_name_witness :
    ("" : String) = "" ∧
    add_project_submit emptyState "" "c" "a" "2024-01-01" "2024-02-01"
        "Planned" "n"
      = (emptyState, SubmitMsg.validationError "Project name is required.") :=
  ⟨rfl, (c5_empty_project_name emptyState "" "c" "a" "2024-01-01"
      "2024-02-01" "Planned" "n" rfl).1⟩

/-- C9: the fraction handed to st.progress is min(1, percentDone/100) and
always lies in [0, 1], while percentDone itself is the raw unclamped
formula. -/
theorem c9_progress_bounds (dft : List Task) :
    0 ≤ progress_value dft ∧ progress_value dft ≤ 1 ∧
    progress_value dft = min 1 (pct_done dft / 100) ∧
    pct_done dft = (if tasks_total dft ≠ 0 then
      (tasks_done dft : ℚ) / (tasks_total dft : ℚ) * 100 else 0) := by
  have hnn : 0 ≤ pct_done dft := by
    rw [pct_done]
    split
    · exact mul_nonneg (div_nonneg (Nat.cast_nonneg _) (Nat.cast_nonneg _))
        (by norm_num)
    · exact le_refl 0
  refine ⟨?_, min_le_left _ _, rfl, rfl⟩
  exact le_min (by norm_num) (div_nonneg hnn (by norm_num))

/-- C10: the income form handler stores every created row with
payment_method "Other": the row count grows by one and every row of the new
state is either an old row or carries payment_method "Other". -/
theorem c10_income_payment_method (db : AppState) (pid : Nat)
    (source : String) (amt : ℚ) (date_val desc : String)
    (h : projectExists db pid = true) :
    (add_income_submit db pid source amt date_val desc).1.incomes.length
      = db.incomes.length + 1 ∧
    ∀ r ∈ (add_income_submit db pid source amt date_val desc).1.incomes,
      r ∈ db.incomes ∨ r.payment_method = "Other" := by
  rw [add_income_submit, if_pos h]
  refine ⟨by simp, fun r hr => ?_⟩
  rcases List.mem_append.1 hr with h1 | h1
  · exact Or.inl h1
  · rw [List.mem_singleton] at h1
    subst h1
    exact Or.inr rfl

/-- Witness for c10_income_payment_method at project 1 of dbKitchen. -/
theorem c10_income_payment_method_witness :
    projectExists dbKitchen 1 = true ∧
    (add_income_submit dbKitchen 1 "Invoice 9" 250 "2024-01-05"
        "Deposit").1.incomes.length = dbKitchen.incomes.length + 1 := by
  have h : projectExists dbKitchen 1 = true := by decide
  exact ⟨h, (c10_income_payment_method dbKitchen 1 "Invoice 9" 250
    "2024-01-05" "Deposit" h).1⟩
/-- C7: the Tasks tab with status filter ["Done"] and no assignee filter
shows exactly the project's tasks with status "Done", in descending-id
order. -/
theorem c7_status_filter (db : AppState) (pid : Nat) :
    List.Perm (tasks_view db pid ["Done"] "")
      (db.tasks.filter (fun t => t.project_id == pid && t.status == "Done")) ∧
    List.Sorted taskIdGe (tasks_view db pid ["Done"] "") := by
  have hview : tasks_view db pid ["Done"] ""
      = (list_tasks db pid).filter
          (fun t => (["Done"] : List String).contains t.status) := rfl
  have heq : ∀ t ∈ db.tasks,
      ((["Done"] : List String).contains t.status && (t.project_id == pid))
        = ((t.project_id == pid) && (t.status == "Done")) := by
    intro t _
    cases hx : t.project_id == pid <;> cases hy : t.status == "Done" <;>
      simp [hx, hy] <;> simp at hy <;> exact hy
  constructor
  · rw [hview, list_tasks]
    refine ((List.perm_insertionSort taskIdGe
        (db.tasks.filter (fun t => t.project_id == pid))).filter
        (fun t => (["Done"] : List String).contains t.status)).trans ?_
    rw [List.filter_filter, List.filter_congr heq]
  · rw [hview]
    exact List.Pairwise.filter _ (List.sorted_insertionSort taskIdGe _)

/-- C8: the Expenses and Income tabs list the selected project's rows
ordered by date descending, then id descending. -/
theorem c8_date_ordering (db : AppState) (pid : Nat) :
    List.Perm (list_expenses db pid)
      (db.expenses.filter (fun e => e.project_id == pid)) ∧
    List.Sorted expOrder (list_expenses db pid) ∧
    List.Perm (list_incomes db pid)
      (db.incomes.filter (fun i => i.project_id == pid)) ∧
    List.Sorted incOrder (list_incomes db pid) :=
  ⟨List.perm_insertionSort _ _, List.sorted_insertionSort _ _,
   List.perm_insertionSort _ _, List.sorted_insertionSort _ _⟩

/-- C6: after deleting a project, no task, expense or income of that project
is returned by any list query (cascade delete). -/
theorem c6_cascade_delete (db : AppState) (pid : Nat) :
    (∀ t : Task, t.project_id = pid →
      ∀ q, t ∉ list_tasks (deleteProject db pid) q) ∧
    (∀ e : Expense, e.project_id = pid →
      ∀ q, e ∉ list_expenses (deleteProject db pid) q) ∧
    (∀ i : Income, i.project_id = pid →
      ∀ q, i ∉ list_incomes (deleteProject db pid) q) := by
  refine ⟨fun t ht q hmem => ?_, fun e he q hmem => ?_,
          fun i hi q hmem => ?_⟩
  · simp [list_tasks, deleteProject, List.mem_filter] at hmem
    exact hmem.2.2 ht
  · simp [list_expenses, deleteProject, List.mem_filter] at hmem
    exact hmem.2.2 he
  · simp [list_incomes, deleteProject, List.mem_filter] at hmem
    exact hmem.2.2 hi

/-- Witness for c6_cascade_delete: deleting project 1 of dbFull makes its
task, expense and income unretrievable. -/
theorem c6_cascade_delete_witness :
    taskA.project_id = 1 ∧ taskA ∉ list_tasks (deleteProject dbFull 1) 1 ∧
    expA.project_id = 1 ∧ expA ∉ list_expenses (deleteProject dbFull 1) 1 ∧
    incA.project_id = 1 ∧ incA ∉ list_incomes (deleteProject dbFull 1) 1 :=
  ⟨rfl, (c6_cascade_delete dbFull 1).1 taskA rfl 1, rfl,
   (c6_cascade_delete dbFull 1).2.1 expA rfl 1, rfl,
   (c6_cascade_delete dbFull 1).2.2 incA rfl 1⟩

end JobTracker
